import Mathlib

/-!
# A verification model of the VSPEC GCM planet container

This file embeds `VSPEC/gcm/planet.py` (the planet/grid aggregate, its shape
validation, coordinate derivation, header composition and binary serialization)
into Lean and proves properties of the embedding.

Modelling conventions:
* A Python string is a `List Char`.
* A 32-bit float element is represented by its bit pattern, a `Nat`; a field
  stores its grid values already flattened in row-major order (`Field.flat`
  in the structure module returns exactly that 1-D view).
* Exact rational arithmetic (`Rat`) stands in for float arithmetic in the
  coordinate-axis derivation (`lons`, `lats`, `dlon`, `dlat`).
* Python exceptions are modelled with `Except PyErr`; `getAttr` models an
  attribute access on a possibly-`None` slot, `pyAssert` models an `assert`
  statement.
-/

set_option autoImplicit false

namespace VSPEC

/-- The characters of a Python string literal. -/
def str (s : String) : List Char := s.data

/-- The kinds of Python exceptions the modelled code can raise. -/
inductive PyErr where
  | typeError
  | attributeError
  | assertionError
  | valueError
  | keyError
  deriving DecidableEq, Repr

/-- Attribute access `x.attr` on a slot that may hold `None`:
raises `AttributeError` when the slot is `None`. -/
def getAttr {α : Type} (o : Option α) : Except PyErr α :=
  match o with
  | none => .error .attributeError
  | some a => .ok a

/-- A Python `assert` statement. -/
def pyAssert (b : Bool) : Except PyErr Unit :=
  if b then .ok () else .error .assertionError

/-- A named, unit-tagged, fixed-shape numeric grid (`VSPEC.gcm.structure`
Field primitive; the module itself is outside the embedded source, its
interface is `name`, `shape` and the 1-D row-major `flat` view, per §4.1
of the design). Values are float32 bit patterns stored row-major. -/
structure Field where
  name : List Char
  shape : List Nat
  values : List Nat
  deriving DecidableEq, Repr

/-- The 1-D, row-major, 32-bit view of the grid values. -/
def Field.flat (f : Field) : List Nat := f.values

/-- Modelled from the spec: the `constant` factory of the structure module
(`st.Molecule.constant`, `st.Aerosol.constant`, `st.AerosolSize.constant`,
`st.Wind.contant`) broadcasts a scalar value to fill the target shape
(§4.1: "if the input is scalar, broadcast it to fill the shape"). -/
def Field.constant (name : List Char) (value : Nat) (shape : List Nat) : Field :=
  ⟨name, shape, List.replicate shape.prod value⟩

/-- `Winds`: exactly two 3-D fields (zonal and meridional velocity). -/
structure Winds where
  wind_u : Field
  wind_v : Field
  deriving DecidableEq, Repr

/-- `Winds.flat` : `np.concatenate([self.wind_u.flat, self.wind_v.flat])`. -/
def Winds.flat (w : Winds) : List Nat :=
  w.wind_u.flat ++ w.wind_v.flat

/-- `Molecules`: an ordered collection of per-gas fields. -/
structure Molecules where
  molecules : List Field
  deriving DecidableEq, Repr

/-- `Molecules.flat` : `np.concatenate([mol.flat for mol in self.molecules])`.
`np.concatenate` raises `ValueError` when handed an empty list of arrays. -/
def Molecules.flat (m : Molecules) : Except PyErr (List Nat) :=
  if m.molecules = [] then .error .valueError
  else .ok ((m.molecules.map Field.flat).flatten)

/-- `Molecules._from_dict` : builds one constant field per mapping entry,
preserving mapping iteration order. -/
def Molecules.from_dict_impl (d : List ((List Char) × Nat)) (shape : List Nat) : Molecules :=
  ⟨d.map (fun kv => Field.constant kv.1 kv.2 shape)⟩

/-- `Molecules.from_dict` : `return cls._from_dict(d, shape)`. -/
def Molecules.from_dict (d : List ((List Char) × Nat)) (shape : List Nat) : Molecules :=
  Molecules.from_dict_impl d shape

/-- `Aerosols`: parallel ordered collections of abundance and size fields. -/
structure Aerosols where
  aerosols : List Field
  sizes : List Field
  deriving DecidableEq, Repr

/-- `Aerosols.flat` : concatenation of all abundance flats then all size
flats; `np.concatenate` raises `ValueError` on an empty list of arrays. -/
def Aerosols.flat (a : Aerosols) : Except PyErr (List Nat) :=
  if a.aerosols = [] ∧ a.sizes = [] then .error .valueError
  else .ok ((a.aerosols.map Field.flat).flatten ++ (a.sizes.map Field.flat).flatten)

/-- `Aerosols._from_dict` : the loop builds the `aersols` and `sizes` lists
but the method body ends without a `return` statement, so the call
evaluates to `None`. -/
def Aerosols.from_dict_impl (d : List ((List Char) × Nat × Nat)) (shape : List Nat) :
    Option Aerosols :=
  let _aersols := d.map (fun kv => Field.constant kv.1 kv.2.1 shape)
  let _sizes := d.map (fun kv => Field.constant (kv.1 ++ str ("_size")) kv.2.2 shape)
  none

/-- `Aerosols.from_dict` : `return cls._from_dict(d, shape)`. -/
def Aerosols.from_dict (d : List ((List Char) × Nat × Nat)) (shape : List Nat) :
    Option Aerosols :=
  Aerosols.from_dict_impl d shape

/-- The `Planet` aggregate root.  Every member that Python may set to `None`
is an `Option`. -/
structure Planet where
  wind : Option Winds
  tsurf : Option Field
  psurf : Option Field
  albedo : Option Field
  emissivity : Option Field
  temperature : Option Field
  pressure : Option Field
  molecules : Option Molecules
  aerosols : Option Aerosols
  deriving DecidableEq, Repr

/-- `for x in xs: assert pred(x)`. -/
def listAssert (pred : Field → Bool) : List Field → Except PyErr Unit
  | [] => .ok ()
  | f :: fs => do
    pyAssert (pred f)
    listAssert pred fs

/-- `if self.wind is not None: assert u.shape == s3d; assert v.shape == s3d`. -/
def windCheck (o : Option Winds) (s : List Nat) : Except PyErr Unit :=
  match o with
  | some w => do
      pyAssert (w.wind_u.shape == s)
      pyAssert (w.wind_v.shape == s)
  | none => Except.ok ()

/-- `if <field> is not None: assert <field>.shape == s`. -/
def optShapeCheck (o : Option Field) (s : List Nat) : Except PyErr Unit :=
  match o with
  | some f => pyAssert (f.shape == s)
  | none => Except.ok ()

/-- `if self.molecules is not None: for molecule in ...: assert ... == s3d`. -/
def molCheck (o : Option Molecules) (s : List Nat) : Except PyErr Unit :=
  match o with
  | some m => listAssert (fun f => f.shape == s) m.molecules
  | none => Except.ok ()

/-- `if self.aerosols is not None`: each abundance and each size field is
asserted against the 3-D shape. -/
def aeroCheck (o : Option Aerosols) (s : List Nat) : Except PyErr Unit :=
  match o with
  | some a => do
      listAssert (fun f => f.shape == s) a.aerosols
      listAssert (fun f => f.shape == s) a.sizes
  | none => Except.ok ()

/-- `Planet.validate` (source lines 97-121), check for check:
`pressure is None` raises `TypeError`; `self.psurf.shape` on a `None`
psurf raises `AttributeError`; every shape comparison is an `assert`. -/
def Planet.validate (p : Planet) : Except PyErr Unit := do
  let pr ← match p.pressure with
           | none => Except.error PyErr.typeError
           | some pr => Except.ok pr
  let shape3d := pr.shape
  let shape2d := shape3d.tail
  windCheck p.wind shape3d
  let ps ← getAttr p.psurf
  pyAssert (ps.shape == shape2d)
  optShapeCheck p.tsurf shape2d
  optShapeCheck p.albedo shape2d
  optShapeCheck p.emissivity shape2d
  optShapeCheck p.temperature shape3d
  molCheck p.molecules shape3d
  aeroCheck p.aerosols shape3d

/-- `Planet.__init__` : store the members, then `self.validate()`;
a raise inside `validate` propagates out of the constructor. -/
def Planet.init (wind : Option Winds) (tsurf psurf albedo emissivity temperature pressure :
    Option Field) (molecules : Option Molecules) (aerosols : Option Aerosols) :
    Except PyErr Planet :=
  let p : Planet := ⟨wind, tsurf, psurf, albedo, emissivity, temperature, pressure,
    molecules, aerosols⟩
  match p.validate with
  | .ok _ => .ok p
  | .error e => .error e

/-- `Planet.shape` : `nlayers, nlon, lat = self.pressure.shape`; the tuple
unpacking raises `ValueError` unless the shape has exactly three entries. -/
def Planet.shape (p : Planet) : Except PyErr (Nat × Nat × Nat) := do
  let pr ← getAttr p.pressure
  match pr.shape with
  | [nlayers, nlon, lat] => .ok (nlayers, nlon, lat)
  | _ => .error .valueError

/-- `Planet.lons` : `np.linspace(-180, 180, nlon, endpoint=False)`, in
degrees, idealized over exact rationals. -/
def Planet.lons (p : Planet) : Except PyErr (List Rat) := do
  let (_, nlon, _) ← p.shape
  .ok ((List.range nlon).map (fun i : Nat => -180 + (i : Rat) * (360 / (nlon : Rat))))

/-- `Planet.dlon` : `360*u.deg / nlon`, in degrees over exact rationals. -/
def Planet.dlon (p : Planet) : Except PyErr Rat := do
  let (_, nlon, _) ← p.shape
  .ok (360 / (nlon : Rat))

/-- `Planet.dlat` : `180*u.deg / nlat`, in degrees over exact rationals. -/
def Planet.dlat (p : Planet) : Except PyErr Rat := do
  let (_, _, nlat) ← p.shape
  .ok (180 / (nlat : Rat))

/-- `Planet.lats` : `np.linspace(-90, 90, nlat, endpoint=True)`, in degrees,
idealized over exact rationals (for `nlat = 1` numpy returns `[-90.]`,
matched here because `Rat` division by zero is zero). -/
def Planet.lats (p : Planet) : Except PyErr (List Rat) := do
  let (_, _, nlat) ← p.shape
  .ok ((List.range nlat).map (fun i : Nat => -90 + (i : Rat) * (180 / ((nlat - 1 : Nat) : Rat))))

/-- The decimal digit character for `d < 10`. -/
def digitChar (d : Nat) : Char := Char.ofNat (48 + d)

/-- Decimal rendering of a natural number, fuel-structured so that the
kernel can evaluate it (`fuel` bounds the magnitude). -/
def natReprAux (fuel : Nat) (n : Nat) : List Char :=
  match fuel with
  | 0 => []
  | fuel + 1 =>
    if n < 10 then [digitChar n]
    else natReprAux fuel (n / 10) ++ [digitChar (n % 10)]

/-- Python's `str(n)` for a nonnegative integer. -/
def natRepr (n : Nat) : List Char := natReprAux (n + 1) n

/-- Accumulating decimal parser over a digit string. -/
def parseNatAux (acc : Nat) : List Char → Nat
  | [] => acc
  | c :: cs => parseNatAux (acc * 10 + (c.toNat - 48)) cs

/-- `int(s)` for a decimal digit string. -/
def parseNat (cs : List Char) : Nat := parseNatAux 0 cs

/-- Rounding to the nearest integer, ties to even (Python's `round`,
which governs `format(x, '.2f')`). -/
def ratRound (q : Rat) : Int :=
  let fl : Int := q.num.fdiv q.den
  let frac : Rat := q - fl
  if frac < 1 / 2 then fl
  else if 1 / 2 < frac then fl + 1
  else if fl % 2 = 0 then fl else fl + 1

/-- Python's `f'{x:.2f}'`, idealized over exact rationals: round `x * 100`
half-to-even and render with two decimal places. -/
def fmt2 (q : Rat) : List Char :=
  let n : Int := ratRound (q * 100)
  (if n < 0 then [Char.ofNat 45] else []) ++
    natRepr (n.natAbs / 100) ++
    [Char.ofNat 46, digitChar (n.natAbs % 100 / 10), digitChar (n.natAbs % 100 % 10)]

/-- `','.join(ts)`. -/
def intercalateChars (sep : Char) : List (List Char) → List Char
  | [] => []
  | [t] => t
  | t :: t2 :: ts => t ++ sep :: intercalateChars sep (t2 :: ts)

/-- `s.split(sep)` over the characters of a string: splits at every
occurrence of `sep`; the result is always nonempty. -/
def splitOnChar (sep : Char) : List Char → List (List Char)
  | [] => [[]]
  | c :: cs =>
    if c = sep then [] :: splitOnChar sep cs
    else
      match splitOnChar sep cs with
      | [] => [[c]]
      | t :: ts => (c :: t) :: ts

/-- `if self.wind is not None: vars.append('Winds')`. -/
def windNameSeg (o : Option Winds) : List (List Char) :=
  match o with
  | some _ => [str ("Winds")]
  | none => []

/-- `if <field> is not None: vars.append(<field>.name)`. -/
def optNameSeg (o : Option Field) : List (List Char) :=
  match o with
  | some f => [f.name]
  | none => []

/-- `if self.molecules is not None: for molecule in ...: vars.append(...)`. -/
def molNameSeg (o : Option Molecules) : List (List Char) :=
  match o with
  | some m => m.molecules.map Field.name
  | none => []

/-- The aerosol loop of `gcm_properties`: all abundance names, then all
size names. -/
def aeroNameSeg (o : Option Aerosols) : List (List Char) :=
  match o with
  | some a => a.aerosols.map Field.name ++ a.sizes.map Field.name
  | none => []

/-- The ordered variable-name list built by `Planet.gcm_properties`
(source lines 146-166): `'Winds'` if wind present, then the names of the
present 2-D fields, the temperature and pressure names, each molecule name
in collection order, then each aerosol abundance name and each aerosol
size name in collection order. -/
def Planet.gcmVars (p : Planet) : Except PyErr (List (List Char)) := do
  let ps ← getAttr p.psurf
  let pr ← getAttr p.pressure
  .ok (windNameSeg p.wind ++ optNameSeg p.tsurf ++ [ps.name] ++ optNameSeg p.albedo ++
    optNameSeg p.emissivity ++ optNameSeg p.temperature ++ [pr.name] ++
    molNameSeg p.molecules ++ aeroNameSeg p.aerosols)

/-- `Planet.gcm_properties` (source lines 142-167):
`f'{nlon},{nlat},{nlayer},-180.0,-90.0,{dlon:.2f},{dlat:.2f}'` followed by
`f',{",".join(vars)}'`. -/
def Planet.gcm_properties (p : Planet) : Except PyErr (List Char) := do
  let (nlayer, nlon, nlat) ← p.shape
  let dl ← p.dlon
  let dla ← p.dlat
  let coords := natRepr nlon ++ [','] ++ natRepr nlat ++ [','] ++ natRepr nlayer ++ [','] ++
    str ("-180.0") ++ [','] ++ str ("-90.0") ++ [','] ++ fmt2 dl ++ [','] ++ fmt2 dla
  let vars ← p.gcmVars
  .ok (coords ++ [','] ++ intercalateChars ',' vars)

/-- One contributor to the binary buffer: the wind pair counts as a single
entry (named by the `'Winds'` token), every other contributor is a field. -/
inductive Entry where
  | winds (w : Winds)
  | field (f : Field)
  deriving DecidableEq, Repr

/-- The header name token of a contributor. -/
def Entry.nameOf : Entry → List Char
  | .winds _ => str ("Winds")
  | .field f => f.name

/-- The values a contributor places into the binary buffer. -/
def Entry.flatOf : Entry → List Nat
  | .winds w => w.flat
  | .field f => f.flat

/-- The wind contributor, when present. -/
def windEntrySeg (o : Option Winds) : List Entry :=
  match o with
  | some w => [Entry.winds w]
  | none => []

/-- An optional single-field contributor. -/
def optEntrySeg (o : Option Field) : List Entry :=
  match o with
  | some f => [Entry.field f]
  | none => []

/-- The molecule contributors, in collection order. -/
def molEntrySeg (o : Option Molecules) : List Entry :=
  match o with
  | some m => m.molecules.map Entry.field
  | none => []

/-- The aerosol contributors: abundances in species order, then sizes. -/
def aeroEntrySeg (o : Option Aerosols) : List Entry :=
  match o with
  | some a => a.aerosols.map Entry.field ++ a.sizes.map Entry.field
  | none => []

/-- The ordered list of contributors to `Planet.flat`, read off the
concatenation order of source lines 168-180; an absent optional member
contributes no entry. -/
def Planet.entries (p : Planet) : Except PyErr (List Entry) := do
  let ps ← getAttr p.psurf
  let pr ← getAttr p.pressure
  .ok (windEntrySeg p.wind ++ optEntrySeg p.tsurf ++ [Entry.field ps] ++
    optEntrySeg p.albedo ++ optEntrySeg p.emissivity ++ optEntrySeg p.temperature ++
    [Entry.field pr] ++ molEntrySeg p.molecules ++ aeroEntrySeg p.aerosols)

/-- `[] if self.wind is None else self.wind.flat`. -/
def windFlatSeg (o : Option Winds) : List Nat :=
  match o with
  | none => []
  | some w => w.flat

/-- `[] if <field> is None else <field>.flat`. -/
def optFlatSeg (o : Option Field) : List Nat :=
  match o with
  | none => []
  | some f => f.flat

/-- `[] if self.molecules is None else self.molecules.flat`. -/
def molFlatSeg (o : Option Molecules) : Except PyErr (List Nat) :=
  match o with
  | none => Except.ok []
  | some m => m.flat

/-- `[] if self.aerosols is None else self.aerosols.flat`. -/
def aeroFlatSeg (o : Option Aerosols) : Except PyErr (List Nat) :=
  match o with
  | none => Except.ok []
  | some a => a.flat

/-- `Planet.flat` (source lines 168-180): `np.concatenate` of the nine
slots in order, an absent optional slot contributing the empty list. -/
def Planet.flat (p : Planet) : Except PyErr (List Nat) := do
  let w := windFlatSeg p.wind
  let t := optFlatSeg p.tsurf
  let ps ← getAttr p.psurf
  let al := optFlatSeg p.albedo
  let em := optFlatSeg p.emissivity
  let te := optFlatSeg p.temperature
  let pr ← getAttr p.pressure
  let mo ← molFlatSeg p.molecules
  let ae ← aeroFlatSeg p.aerosols
  .ok (w ++ t ++ ps.flat ++ al ++ em ++ te ++ pr.flat ++ mo ++ ae)

/-- Modelled from the spec: `VSPEC.config.atmosphere_type_dict`, the static
gas-name → type lookup (§6: "two fixed name→type tables ... must be
supplied as configuration data").  A numeric type is a HITRAN molecular
index, later wrapped as `HIT[n]`; a string type is passed through.  The
entries here cover common gases; only `H2O` is exercised below. -/
def atmosphere_type_dict : List ((List Char) × (Nat ⊕ List Char)) :=
  [(str ("H2O"), .inl 1), (str ("CO2"), .inl 2), (str ("O3"), .inl 3),
   (str ("N2O"), .inl 4), (str ("CO"), .inl 5), (str ("CH4"), .inl 6),
   (str ("O2"), .inl 7), (str ("N2"), .inl 22)]

/-- Modelled from the spec: `VSPEC.config.aerosol_type_dict`, the static
aerosol-name → type lookup (§6); an unrecognized name is a lookup error. -/
def aerosol_type_dict : List ((List Char) × List Char) :=
  [(str ("Water"), str ("AFCRL_Water_HRI"))]

/-- `d[k]` on a Python dict: `KeyError` when the key is absent. -/
def dictGet {α : Type} (d : List ((List Char) × α)) (k : List Char) : Except PyErr α :=
  match d.find? (fun kv => kv.1 == k) with
  | some kv => .ok kv.2
  | none => .error .keyError

/-- `Planet.psg_params` (source lines 182-214): the ordered mapping of
header-field names to string values.  `self.molecules.molecules` is read
unconditionally; the aerosol block is appended only when aerosols are
present and nonempty. -/
def Planet.psg_params (p : Planet) : Except PyErr (List ((List Char) × List Char)) := do
  let (nlayers, _, _) ← p.shape
  let mols ← getAttr p.molecules
  let gases := mols.molecules.map Field.name
  let aerosols := match p.aerosols with
                  | some a => a.aerosols.map Field.name
                  | none => []
  let gas_types ← gases.mapM (fun gas => do
    let t ← dictGet atmosphere_type_dict gas
    match t with
    | .inl n => pure (str ("HIT[") ++ natRepr n ++ str ("]"))
    | .inr s => pure s)
  let aerosol_types ← aerosols.mapM (fun a => dictGet aerosol_type_dict a)
  let gcm_params ← p.gcm_properties
  let params :=
    [(str ("ATMOSPHERE-DESCRIPTION"), str ("Variable Star Phase CurvE (VSPEC) default GCM")),
     (str ("ATMOSPHERE-STRUCTURE"), str ("Equilibrium")),
     (str ("ATMOSPHERE-LAYERS"), natRepr nlayers),
     (str ("ATMOSPHERE-NGAS"), natRepr gases.length),
     (str ("ATMOSPHERE-GAS"), intercalateChars ',' gases),
     (str ("ATMOSPHERE-TYPE"), intercalateChars ',' gas_types),
     (str ("ATMOSPHERE-ABUN"), intercalateChars ',' (List.replicate gases.length (str ("1")))),
     (str ("ATMOSPHERE-UNIT"), intercalateChars ',' (List.replicate gases.length (str ("scl")))),
     (str ("ATMOSPHERE-GCM-PARAMETERS"), gcm_params)]
  .ok (params ++
    (if aerosols.length > 0 then
      [(str ("ATMOSPHERE-NAERO"), natRepr aerosols.length),
       (str ("ATMOSPHERE-AEROS"), intercalateChars ',' aerosols),
       (str ("ATMOSPHERE-ATYPE"), intercalateChars ',' aerosol_types),
       (str ("ATMOSPHERE-AABUN"), intercalateChars ',' (List.replicate aerosols.length (str ("1")))),
       (str ("ATMOSPHERE-AUNIT"), intercalateChars ',' (List.replicate aerosols.length (str ("scl")))),
       (str ("ATMOSPHERE-ASIZE"), intercalateChars ',' (List.replicate aerosols.length (str ("1")))),
       (str ("ATMOSPHERE-ASUNI"), intercalateChars ',' (List.replicate aerosols.length (str ("scl"))))]
     else []))

/-- UTF-8 encoding of one code point. -/
def utf8Bytes (n : Nat) : List Nat :=
  if n < 128 then [n]
  else if n < 2048 then [192 + n / 64, 128 + n % 64]
  else if n < 65536 then [224 + n / 4096, 128 + n / 64 % 64, 128 + n % 64]
  else [240 + n / 262144, 128 + n / 4096 % 64, 128 + n / 64 % 64, 128 + n % 64]

/-- `bytes(s, encoding='UTF-8')` over a character list. -/
def strBytesL (cs : List Char) : List Nat := cs.flatMap (fun c => utf8Bytes c.toNat)

/-- `bytes(s, encoding='UTF-8')` of a string literal. -/
def strBytes (s : String) : List Nat := strBytesL (str s)

/-- The four little-endian bytes of one float32 element
(`ndarray.tobytes('C')` on a native little-endian host). -/
def toBytes4 (v : Nat) : List Nat :=
  [v % 256, v / 256 % 256, v / 65536 % 256, v / 16777216 % 256]

/-- The newline-joined `'<FIELD>value'` rendering of the parameter table. -/
def configLines (params : List ((List Char) × List Char)) : List Char :=
  intercalateChars '\n' (params.map (fun kv => '<' :: kv.1 ++ '>' :: kv.2))

/-- `Planet.content` (source lines 215-220): encode the header text, then
`b'\n<BINARY>'`, then the raw buffer bytes, then `b'</BINARY>'`. -/
def Planet.content (p : Planet) : Except PyErr (List Nat) := do
  let params ← p.psg_params
  let config := configLines params
  let contentBytes := strBytesL config
  let fl ← p.flat
  let dat := fl.flatMap toBytes4
  .ok (contentBytes ++ strBytes ("\n<BINARY>") ++ dat ++ strBytes ("</BINARY>"))

/-! ## Concrete planets used as witnesses and counterexamples -/

/-- A minimal valid planet on the degenerate grid `(1, 1, 1)`:
only the required fields are present. -/
def planetA : Planet :=
  { wind := none, tsurf := none,
    psurf := some ⟨str ("Psurf"), [1, 1], [7]⟩,
    albedo := none, emissivity := none, temperature := none,
    pressure := some ⟨str ("Pressure"), [1, 1, 1], [3]⟩,
    molecules := none, aerosols := none }

/-- A minimal valid planet on the grid `(n_layer = 1, n_lon = 1, n_lat = 2)`. -/
def planetB : Planet :=
  { wind := none, tsurf := none,
    psurf := some ⟨str ("Psurf"), [1, 2], [5, 6]⟩,
    albedo := none, emissivity := none, temperature := none,
    pressure := some ⟨str ("Pressure"), [1, 1, 2], [3, 4]⟩,
    molecules := some ⟨[Field.constant (str ("H2O")) 11 [1, 1, 2]]⟩,
    aerosols := none }

/-- The §8 scenario planet: grid `(n_layer = 2, n_lon = 2, n_lat = 2)`, one
gas `H2O` of constant abundance (bit pattern of `1e-3f`), no aerosols and
no optional wind/albedo/emissivity/tsurf/temperature fields. -/
def planetC : Planet :=
  { wind := none, tsurf := none,
    psurf := some (Field.constant (str ("Psurf")) 1065353216 [2, 2]),
    albedo := none, emissivity := none, temperature := none,
    pressure := some (Field.constant (str ("Pressure")) 1065353216 [2, 2, 2]),
    molecules := some (Molecules.from_dict [(str ("H2O"), 981668463)] [2, 2, 2]),
    aerosols := none }

/-! ## Spec-side statements

The definitions below spell out, in the claims' own language, the
properties to be compared against the source translation above. -/

/-- The payload of an `Except` value, with a default for the error case
(used to name the concrete results of concrete planets). -/
def okD {α : Type} (e : Except PyErr α) (d : α) : α :=
  match e with
  | .ok a => a
  | .error _ => d

/-- The parameter table of `planetC`. -/
def planetC_params : List ((List Char) × List Char) := okD planetC.psg_params []

/-- The flat buffer of `planetC`. -/
def planetC_flat : List Nat := okD planetC.flat []

/-- The contributor list of `planetC`. -/
def planetC_entries : List Entry := okD planetC.entries []

/-- The header string of `planetC`. -/
def planetC_gcm : List Char := okD planetC.gcm_properties []

/-- The validity conditions of §4.3, in the claim's language: `pressure`
present, `psurf` present, and every present optional field's shape equal
to the canonical 3-D shape (from `pressure`) or 2-D shape (its tail). -/
def PlanetValid (p : Planet) : Prop :=
  ∃ pr, p.pressure = some pr ∧
  ∃ ps, p.psurf = some ps ∧
    ps.shape = pr.shape.tail ∧
    (∀ w, p.wind = some w → w.wind_u.shape = pr.shape ∧ w.wind_v.shape = pr.shape) ∧
    (∀ f, p.tsurf = some f → f.shape = pr.shape.tail) ∧
    (∀ f, p.albedo = some f → f.shape = pr.shape.tail) ∧
    (∀ f, p.emissivity = some f → f.shape = pr.shape.tail) ∧
    (∀ f, p.temperature = some f → f.shape = pr.shape) ∧
    (∀ m, p.molecules = some m → ∀ f ∈ m.molecules, f.shape = pr.shape) ∧
    (∀ a, p.aerosols = some a →
      (∀ f ∈ a.aerosols, f.shape = pr.shape) ∧ ∀ f ∈ a.sizes, f.shape = pr.shape)

/-- Claim language: "wind_u then wind_v (if wind present)", else nothing. -/
def specWindSeg (o : Option Winds) : List Nat :=
  match o with
  | some w => w.wind_u.values ++ w.wind_v.values
  | none => []

/-- Claim language: the field's elements if present, zero elements if not. -/
def specOptSeg (o : Option Field) : List Nat :=
  match o with
  | some f => f.values
  | none => []

/-- Claim language: "each molecule in collection order". -/
def specMolSeg (o : Option Molecules) : List Nat :=
  match o with
  | some m => (m.molecules.map Field.values).flatten
  | none => []

/-- Claim language: "each aerosol abundance in species order followed by
each aerosol size in the same order". -/
def specAeroSeg (o : Option Aerosols) : List Nat :=
  match o with
  | some a => (a.aerosols.map Field.values).flatten ++ (a.sizes.map Field.values).flatten
  | none => []

/-- The binary buffer as enumerated by claim C2: wind components, surface
temperature, surface pressure, albedo, emissivity, temperature, pressure,
molecules in collection order, aerosol abundances then sizes; an absent
optional field contributes zero elements.  Spelled directly over the
stored 32-bit row-major value lists. -/
def FlatSpecBuffer (p : Planet) (pr ps : Field) : List Nat :=
  specWindSeg p.wind ++ specOptSeg p.tsurf ++ ps.values ++ specOptSeg p.albedo ++
    specOptSeg p.emissivity ++ specOptSeg p.temperature ++ pr.values ++
    specMolSeg p.molecules ++ specAeroSeg p.aerosols

/-- `params['KEY']` over the rendered parameter list. -/
def lookupParam (params : List ((List Char) × List Char)) (k : List Char) :
    Option (List Char) :=
  (params.find? (fun kv => kv.1 == k)).map Prod.snd

/-- Claim C3's description of `content`: UTF-8 header text, the literal
opening delimiter, 4 bytes per buffer element with no padding, the literal
closing delimiter, together with the payload-size identity. -/
def ContentSpec (p : Planet) (params : List ((List Char) × List Char)) (fl : List Nat) : Prop :=
  ∃ c, p.content = .ok c ∧
    c = strBytesL (configLines params) ++ strBytes ("\n<BINARY>") ++
      fl.flatMap toBytes4 ++ strBytes ("</BINARY>") ∧
    fl.length * 4 =
      c.length - (strBytesL (configLines params)).length -
        (strBytes ("\n<BINARY>")).length - (strBytes ("</BINARY>")).length

/-- Claim C1's correspondence: the name tokens after the seven-entry
coordinate block of `gcm_properties` list the contributors to `flat`,
one token per contributor in identical order, and `flat` is exactly the
concatenation of those contributors' values. -/
def GcmNamesMatch (es : List Entry) (g : List Char) (fl : List Nat) : Prop :=
  (splitOnChar ',' g).drop 7 = es.map Entry.nameOf ∧
  fl = (es.map Entry.flatOf).flatten

/-- Claim C5's description of the coordinate axes: `lons` is `n_lon`
evenly spaced points starting at `-180`, all inside the half-open span
`[-180, 180)`; `lats` is `n_lat` evenly spaced points containing both
`-90` and `90`, all inside the closed span `[-90, 90]`; `dlon` and `dlat`
are `360/n_lon` and `180/n_lat`. -/
def LonLatSpec (p : Planet) (nlon nlat : Nat) : Prop :=
  ∃ lo la,
    p.lons = .ok lo ∧ lo.length = nlon ∧
    (∀ i : Fin lo.length, lo.get i = -180 + ((i : Nat) : Rat) * (360 / (nlon : Rat))) ∧
    (∀ x ∈ lo, -180 ≤ x ∧ x < 180) ∧
    p.lats = .ok la ∧ la.length = nlat ∧
    (∀ i : Fin la.length, la.get i = -90 + ((i : Nat) : Rat) * (180 / ((nlat - 1 : Nat) : Rat))) ∧
    (-90 : Rat) ∈ la ∧ (90 : Rat) ∈ la ∧
    (∀ x ∈ la, -90 ≤ x ∧ x ≤ 90) ∧
    p.dlon = .ok (360 / (nlon : Rat)) ∧
    p.dlat = .ok (180 / (nlat : Rat))

/-- Claim C9's round-trip parse: split the header string on commas, read
the first three entries as `(n_lon, n_lat, n_layer)` and reassemble the
`(n_layer, n_lon, n_lat)` shape tuple. -/
def parseShapeTriple (g : List Char) : Option (Nat × Nat × Nat) :=
  match (splitOnChar ',' g).take 3 with
  | [a, b, c] => some (parseNat c, parseNat a, parseNat b)
  | _ => none

/-! ## Lemmas about the exception monad -/

@[simp]
theorem ok_bind {ε α β : Type} (a : α) (f : α → Except ε β) :
    (Except.ok a >>= f) = f a := rfl

@[simp]
theorem error_bind {ε α β : Type} (e : ε) (f : α → Except ε β) :
    ((Except.error e : Except ε α) >>= f) = Except.error e := rfl

theorem except_bind_ok {ε α β : Type} (x : Except ε α) (f : α → Except ε β) (b : β) :
    (x >>= f) = Except.ok b ↔ ∃ a, x = Except.ok a ∧ f a = Except.ok b := by
  cases x <;> simp

@[simp]
theorem getAttr_some {α : Type} (a : α) : getAttr (some a) = Except.ok a := rfl

@[simp]
theorem getAttr_none {α : Type} :
    getAttr (none : Option α) = (Except.error PyErr.attributeError : Except PyErr α) := rfl

theorem getAttr_ok_iff {α : Type} (o : Option α) (a : α) :
    getAttr o = .ok a ↔ o = some a := by
  cases o <;> simp

theorem pyAssert_ok_iff (b : Bool) (u : Unit) : pyAssert b = .ok u ↔ b = true := by
  cases b <;> simp [pyAssert]

theorem listAssert_ok_iff (pred : Field → Bool) (xs : List Field) (u : Unit) :
    listAssert pred xs = .ok u ↔ ∀ f ∈ xs, pred f = true := by
  induction xs with
  | nil => simp [listAssert]
  | cons x xs ih => simp [listAssert, except_bind_ok, pyAssert_ok_iff, ih]

/-! ## The validation characterization -/

theorem windCheck_ok_iff (o : Option Winds) (s : List Nat) (u : Unit) :
    windCheck o s = .ok u ↔ ∀ w, o = some w → w.wind_u.shape = s ∧ w.wind_v.shape = s := by
  cases o <;> simp [windCheck, except_bind_ok, pyAssert_ok_iff]

theorem optShapeCheck_ok_iff (o : Option Field) (s : List Nat) (u : Unit) :
    optShapeCheck o s = .ok u ↔ ∀ f, o = some f → f.shape = s := by
  cases o <;> simp [optShapeCheck, pyAssert_ok_iff]

theorem molCheck_ok_iff (o : Option Molecules) (s : List Nat) (u : Unit) :
    molCheck o s = .ok u ↔ ∀ m, o = some m → ∀ f ∈ m.molecules, f.shape = s := by
  cases o <;> simp [molCheck, listAssert_ok_iff]

theorem aeroCheck_ok_iff (o : Option Aerosols) (s : List Nat) (u : Unit) :
    aeroCheck o s = .ok u ↔
      ∀ a, o = some a → (∀ f ∈ a.aerosols, f.shape = s) ∧ ∀ f ∈ a.sizes, f.shape = s := by
  cases o <;> simp [aeroCheck, except_bind_ok, listAssert_ok_iff]

/-- `validate` succeeds exactly on the §4.3 validity conditions. -/
theorem validate_ok_iff (p : Planet) : p.validate = .ok () ↔ PlanetValid p := by
  cases hp : p.pressure with
  | none => simp [Planet.validate, hp, PlanetValid]
  | some pr =>
    cases hps : p.psurf with
    | none =>
      simp [Planet.validate, hp, hps, PlanetValid, except_bind_ok]
    | some ps =>
      simp only [Planet.validate, hp, hps, PlanetValid, except_bind_ok, getAttr_some,
        ok_bind, windCheck_ok_iff, optShapeCheck_ok_iff, molCheck_ok_iff, aeroCheck_ok_iff,
        pyAssert_ok_iff, beq_iff_eq, Option.some.injEq, exists_eq_left, exists_const,
        exists_and_left, exists_eq_left']
      tauto

theorem validate_ok_pressure (p : Planet) (h : p.validate = .ok ()) :
    ∃ pr, p.pressure = some pr := by
  rcases (validate_ok_iff p).mp h with ⟨pr, hpr, _⟩
  exact ⟨pr, hpr⟩

theorem validate_ok_psurf (p : Planet) (h : p.validate = .ok ()) :
    ∃ ps, p.psurf = some ps := by
  rcases (validate_ok_iff p).mp h with ⟨pr, hpr, ps, hps, _⟩
  exact ⟨ps, hps⟩

/-! ## Decimal rendering and parsing -/

theorem digitChar_toNat (d : Nat) (h : d < 10) : (digitChar d).toNat = 48 + d := by
  interval_cases d <;> decide

theorem digitChar_ne_comma (d : Nat) (h : d < 10) : digitChar d ≠ ',' := by
  interval_cases d <;> decide

theorem natReprAux_ne_comma (fuel : Nat) :
    ∀ n, ∀ c ∈ natReprAux fuel n, c ≠ ',' := by
  induction fuel with
  | zero => simp [natReprAux]
  | succ fuel ih =>
    intro n c hc
    by_cases h : n < 10
    · simp [natReprAux, h] at hc
      exact hc ▸ digitChar_ne_comma n h
    · simp [natReprAux, h] at hc
      rcases hc with hc | hc
      · exact ih (n / 10) c hc
      · exact hc ▸ digitChar_ne_comma (n % 10) (Nat.mod_lt _ (by omega))

theorem natRepr_ne_comma (n : Nat) : ∀ c ∈ natRepr n, c ≠ ',' :=
  natReprAux_ne_comma (n + 1) n

theorem natReprAux_succ (fuel n : Nat) :
    natReprAux (fuel + 1) n =
      if n < 10 then [digitChar n]
      else natReprAux fuel (n / 10) ++ [digitChar (n % 10)] := rfl

theorem parseNatAux_nil (a : Nat) : parseNatAux a [] = a := rfl

theorem parseNatAux_cons (a : Nat) (c : Char) (cs : List Char) :
    parseNatAux a (c :: cs) = parseNatAux (a * 10 + (c.toNat - 48)) cs := rfl

theorem parseNatAux_append (xs ys : List Char) :
    ∀ a, parseNatAux a (xs ++ ys) = parseNatAux (parseNatAux a xs) ys := by
  induction xs with
  | nil =>
    intro a
    rfl
  | cons c cs ih =>
    intro a
    exact ih (a * 10 + (c.toNat - 48))

theorem parseNatAux_natReprAux (fuel : Nat) :
    ∀ n a, n < fuel →
      parseNatAux a (natReprAux fuel n) = a * 10 ^ (natReprAux fuel n).length + n := by
  induction fuel with
  | zero => omega
  | succ fuel ih =>
    intro n a hn
    by_cases h : n < 10
    · rw [natReprAux_succ, if_pos h, parseNatAux_cons, parseNatAux_nil,
        digitChar_toNat n h, List.length_singleton, pow_one]
      omega
    · have hdiv : n / 10 < n := Nat.div_lt_self (by omega) (by omega)
      have hfl : n / 10 < fuel := by omega
      have hrepr : natReprAux (fuel + 1) n =
          natReprAux fuel (n / 10) ++ [digitChar (n % 10)] := by
        rw [natReprAux_succ, if_neg h]
      rw [hrepr, parseNatAux_append, ih (n / 10) a hfl, parseNatAux_cons, parseNatAux_nil,
        digitChar_toNat (n % 10) (Nat.mod_lt _ (by omega)),
        List.length_append, List.length_singleton]
      have hmod := Nat.div_add_mod n 10
      have hpow : a * 10 ^ ((natReprAux fuel (n / 10)).length + 1) =
          a * 10 ^ (natReprAux fuel (n / 10)).length * 10 := by
        rw [pow_succ, Nat.mul_assoc]
      omega

theorem parseNat_natRepr (n : Nat) : parseNat (natRepr n) = n := by
  have h := parseNatAux_natReprAux (n + 1) n 0 (by omega)
  simpa [parseNat, natRepr] using h

theorem fmt2_ne_comma (q : Rat) : ∀ c ∈ fmt2 q, c ≠ ',' := by
  intro c hc
  have h100 : (ratRound (q * 100)).natAbs % 100 < 100 := Nat.mod_lt _ (by omega)
  simp only [fmt2, List.mem_append, List.mem_cons, List.not_mem_nil, or_false] at hc
  rcases hc with (hc | hc) | hc | hc | hc
  · by_cases hneg : ratRound (q * 100) < 0
    · simp only [if_pos hneg, List.mem_singleton] at hc
      subst hc
      decide
    · simp only [if_neg hneg] at hc
      exact absurd hc (List.not_mem_nil c)
  · exact natRepr_ne_comma _ c hc
  · subst hc
    decide
  · subst hc
    exact digitChar_ne_comma _ (by omega)
  · subst hc
    exact digitChar_ne_comma _ (by omega)

/-! ## Splitting the comma-joined header string -/

theorem splitOnChar_no_sep (sep : Char) (t : List Char) (h : sep ∉ t) :
    splitOnChar sep t = [t] := by
  induction t with
  | nil => simp [splitOnChar]
  | cons c cs ih =>
    have hc : ¬c = sep := by
      intro e
      exact h (by simp [e])
    have h' : sep ∉ cs := fun e => h (List.mem_cons_of_mem _ e)
    simp [splitOnChar, hc, ih h']

theorem splitOnChar_append (sep : Char) (t rest : List Char) (h : sep ∉ t) :
    splitOnChar sep (t ++ sep :: rest) = t :: splitOnChar sep rest := by
  induction t with
  | nil => simp [splitOnChar]
  | cons c cs ih =>
    have hc : ¬c = sep := by
      intro e
      exact h (by simp [e])
    have h' : sep ∉ cs := fun e => h (List.mem_cons_of_mem _ e)
    simp [splitOnChar, hc, ih h']

theorem splitOnChar_intercalate (sep : Char) (ts : List (List Char)) (hne : ts ≠ [])
    (h : ∀ t ∈ ts, sep ∉ t) :
    splitOnChar sep (intercalateChars sep ts) = ts := by
  induction ts with
  | nil => exact absurd rfl hne
  | cons t ts ih =>
    cases ts with
    | nil =>
      simp [intercalateChars, splitOnChar_no_sep sep t (h t (by simp))]
    | cons t2 ts2 =>
      rw [intercalateChars, splitOnChar_append sep t _ (h t (by simp))]
      rw [ih (by simp) (fun u hu => h u (List.mem_cons_of_mem _ hu))]

theorem comma_not_mem_natRepr (n : Nat) : ',' ∉ natRepr n :=
  fun h => natRepr_ne_comma n ',' h rfl

theorem comma_not_mem_fmt2 (q : Rat) : ',' ∉ fmt2 q :=
  fun h => fmt2_ne_comma q ',' h rfl

/-! ## Unfolding the coordinate accessors -/

theorem dlon_eq (p : Planet) (nlayer nlon nlat : Nat)
    (hs : p.shape = .ok (nlayer, nlon, nlat)) : p.dlon = .ok (360 / (nlon : Rat)) := by
  simp [Planet.dlon, hs]

theorem dlat_eq (p : Planet) (nlayer nlon nlat : Nat)
    (hs : p.shape = .ok (nlayer, nlon, nlat)) : p.dlat = .ok (180 / (nlat : Rat)) := by
  simp [Planet.dlat, hs]

theorem lons_eq (p : Planet) (nlayer nlon nlat : Nat)
    (hs : p.shape = .ok (nlayer, nlon, nlat)) :
    p.lons = .ok ((List.range nlon).map (fun i : Nat => -180 + (i : Rat) * (360 / (nlon : Rat)))) := by
  simp [Planet.lons, hs]

theorem lats_eq (p : Planet) (nlayer nlon nlat : Nat)
    (hs : p.shape = .ok (nlayer, nlon, nlat)) :
    p.lats = .ok ((List.range nlat).map
      (fun i : Nat => -90 + (i : Rat) * (180 / ((nlat - 1 : Nat) : Rat)))) := by
  simp [Planet.lats, hs]

/-! ## The header string and its token structure -/

theorem gcmVars_eq (p : Planet) (ps pr : Field)
    (hps : p.psurf = some ps) (hpr : p.pressure = some pr) :
    p.gcmVars = .ok (windNameSeg p.wind ++ optNameSeg p.tsurf ++ [ps.name] ++
      optNameSeg p.albedo ++ optNameSeg p.emissivity ++ optNameSeg p.temperature ++
      [pr.name] ++ molNameSeg p.molecules ++ aeroNameSeg p.aerosols) := by
  simp [Planet.gcmVars, hps, hpr]

theorem gcmVars_ok_ne_nil (p : Planet) (vars : List (List Char))
    (h : p.gcmVars = .ok vars) : vars ≠ [] := by
  cases hps : p.psurf with
  | none => simp [Planet.gcmVars, hps] at h
  | some ps =>
    cases hpr : p.pressure with
    | none => simp [Planet.gcmVars, hps, hpr] at h
    | some pr =>
      rw [gcmVars_eq p ps pr hps hpr] at h
      have h' := h
      apply List.ne_nil_of_length_pos
      have : vars.length =
          (windNameSeg p.wind ++ optNameSeg p.tsurf ++ [ps.name] ++
            optNameSeg p.albedo ++ optNameSeg p.emissivity ++ optNameSeg p.temperature ++
            [pr.name] ++ molNameSeg p.molecules ++ aeroNameSeg p.aerosols).length := by
        injection h' with h2
        rw [h2]
      simp only [List.length_append, List.length_singleton] at this
      omega

theorem gcm_properties_eq (p : Planet) (nlayer nlon nlat : Nat) (vars : List (List Char))
    (hs : p.shape = .ok (nlayer, nlon, nlat)) (hv : p.gcmVars = .ok vars) :
    p.gcm_properties = .ok (natRepr nlon ++ [','] ++ natRepr nlat ++ [','] ++
      natRepr nlayer ++ [','] ++ str ("-180.0") ++ [','] ++ str ("-90.0") ++ [','] ++
      fmt2 (360 / (nlon : Rat)) ++ [','] ++ fmt2 (180 / (nlat : Rat)) ++ [','] ++
      intercalateChars ',' vars) := by
  simp [Planet.gcm_properties, hs, hv, dlon_eq p nlayer nlon nlat hs,
    dlat_eq p nlayer nlon nlat hs]

theorem splitOnChar_gcm (nlayer nlon nlat : Nat) (dl dla : Rat) (vars : List (List Char))
    (hvne : vars ≠ []) (hvc : ∀ t ∈ vars, ',' ∉ t) :
    splitOnChar ',' (natRepr nlon ++ [','] ++ natRepr nlat ++ [','] ++
      natRepr nlayer ++ [','] ++ str ("-180.0") ++ [','] ++ str ("-90.0") ++ [','] ++
      fmt2 dl ++ [','] ++ fmt2 dla ++ [','] ++ intercalateChars ',' vars) =
    [natRepr nlon, natRepr nlat, natRepr nlayer, str ("-180.0"), str ("-90.0"),
      fmt2 dl, fmt2 dla] ++ vars := by
  simp only [List.append_assoc, List.singleton_append, List.cons_append, List.nil_append]
  rw [splitOnChar_append ',' (natRepr nlon) _ (comma_not_mem_natRepr nlon)]
  rw [splitOnChar_append ',' (natRepr nlat) _ (comma_not_mem_natRepr nlat)]
  rw [splitOnChar_append ',' (natRepr nlayer) _ (comma_not_mem_natRepr nlayer)]
  rw [splitOnChar_append ',' (str ("-180.0")) _ (by decide)]
  rw [splitOnChar_append ',' (str ("-90.0")) _ (by decide)]
  rw [splitOnChar_append ',' (fmt2 dl) _ (comma_not_mem_fmt2 dl)]
  rw [splitOnChar_append ',' (fmt2 dla) _ (comma_not_mem_fmt2 dla)]
  rw [splitOnChar_intercalate ',' vars hvne hvc]

/-! ## Contributor entries against names and buffer segments -/

theorem entries_eq (p : Planet) (ps pr : Field)
    (hps : p.psurf = some ps) (hpr : p.pressure = some pr) :
    p.entries = .ok (windEntrySeg p.wind ++ optEntrySeg p.tsurf ++ [Entry.field ps] ++
      optEntrySeg p.albedo ++ optEntrySeg p.emissivity ++ optEntrySeg p.temperature ++
      [Entry.field pr] ++ molEntrySeg p.molecules ++ aeroEntrySeg p.aerosols) := by
  simp [Planet.entries, hps, hpr]

theorem map_nameOf_windEntrySeg (o : Option Winds) :
    (windEntrySeg o).map Entry.nameOf = windNameSeg o := by
  cases o <;> rfl

theorem map_nameOf_optEntrySeg (o : Option Field) :
    (optEntrySeg o).map Entry.nameOf = optNameSeg o := by
  cases o <;> rfl

theorem map_nameOf_molEntrySeg (o : Option Molecules) :
    (molEntrySeg o).map Entry.nameOf = molNameSeg o := by
  cases o with
  | none => rfl
  | some m =>
    simp only [molEntrySeg, molNameSeg, List.map_map]
    rfl

theorem map_nameOf_aeroEntrySeg (o : Option Aerosols) :
    (aeroEntrySeg o).map Entry.nameOf = aeroNameSeg o := by
  cases o with
  | none => rfl
  | some a =>
    simp only [aeroEntrySeg, aeroNameSeg, List.map_append, List.map_map]
    rfl

theorem flatten_flatOf_windEntrySeg (o : Option Winds) :
    ((windEntrySeg o).map Entry.flatOf).flatten = windFlatSeg o := by
  cases o <;> simp [windEntrySeg, windFlatSeg, Entry.flatOf]

theorem flatten_flatOf_optEntrySeg (o : Option Field) :
    ((optEntrySeg o).map Entry.flatOf).flatten = optFlatSeg o := by
  cases o <;> simp [optEntrySeg, optFlatSeg, Entry.flatOf]

theorem flatten_flatOf_molEntrySeg (o : Option Molecules) (mo : List Nat)
    (h : molFlatSeg o = .ok mo) :
    ((molEntrySeg o).map Entry.flatOf).flatten = mo := by
  cases o with
  | none =>
    simp only [molFlatSeg, Except.ok.injEq] at h
    simp [molEntrySeg, h]
  | some m =>
    simp only [molFlatSeg, Molecules.flat] at h
    by_cases hm : m.molecules = []
    · rw [if_pos hm] at h
      exact absurd h (by simp)
    · rw [if_neg hm] at h
      injection h with h2
      rw [← h2]
      simp only [molEntrySeg, List.map_map]
      rfl

theorem flatten_flatOf_aeroEntrySeg (o : Option Aerosols) (ae : List Nat)
    (h : aeroFlatSeg o = .ok ae) :
    ((aeroEntrySeg o).map Entry.flatOf).flatten = ae := by
  cases o with
  | none =>
    simp only [aeroFlatSeg, Except.ok.injEq] at h
    simp [aeroEntrySeg, h]
  | some a =>
    simp only [aeroFlatSeg, Aerosols.flat] at h
    by_cases ha : a.aerosols = [] ∧ a.sizes = []
    · rw [if_pos ha] at h
      exact absurd h (by simp)
    · rw [if_neg ha] at h
      injection h with h2
      rw [← h2]
      simp only [aeroEntrySeg, List.map_append, List.map_map, List.flatten_append]
      rfl

/-! ## The flat buffer -/

theorem flat_eq (p : Planet) (ps pr : Field) (mo ae : List Nat)
    (hps : p.psurf = some ps) (hpr : p.pressure = some pr)
    (hmo : molFlatSeg p.molecules = .ok mo) (hae : aeroFlatSeg p.aerosols = .ok ae) :
    p.flat = .ok (windFlatSeg p.wind ++ optFlatSeg p.tsurf ++ ps.flat ++
      optFlatSeg p.albedo ++ optFlatSeg p.emissivity ++ optFlatSeg p.temperature ++
      pr.flat ++ mo ++ ae) := by
  simp [Planet.flat, hps, hpr, hmo, hae]

theorem flat_ok_inv (p : Planet) (fl : List Nat) (h : p.flat = .ok fl) :
    ∃ ps pr mo ae, p.psurf = some ps ∧ p.pressure = some pr ∧
      molFlatSeg p.molecules = .ok mo ∧ aeroFlatSeg p.aerosols = .ok ae ∧
      fl = windFlatSeg p.wind ++ optFlatSeg p.tsurf ++ ps.flat ++
        optFlatSeg p.albedo ++ optFlatSeg p.emissivity ++ optFlatSeg p.temperature ++
        pr.flat ++ mo ++ ae := by
  simp only [Planet.flat, except_bind_ok, getAttr_ok_iff, Except.ok.injEq] at h
  obtain ⟨ps, hps, pr, hpr, mo, hmo, ae, hae, hfl⟩ := h
  exact ⟨ps, pr, mo, ae, hps, hpr, hmo, hae, hfl.symm⟩

/-! ## Content and byte lengths -/

theorem flatMap_toBytes4_cons (x : Nat) (xs : List Nat) :
    (x :: xs).flatMap toBytes4 = toBytes4 x ++ xs.flatMap toBytes4 := rfl

theorem length_flatMap_toBytes4 (l : List Nat) :
    (l.flatMap toBytes4).length = 4 * l.length := by
  induction l with
  | nil => rfl
  | cons x xs ih =>
    rw [flatMap_toBytes4_cons, List.length_append, ih]
    simp only [toBytes4, List.length_cons, List.length_nil, List.length_cons]
    omega

theorem content_eq (p : Planet) (params : List ((List Char) × List Char)) (fl : List Nat)
    (hp : p.psg_params = .ok params) (hf : p.flat = .ok fl) :
    p.content = .ok (strBytesL (configLines params) ++ strBytes ("\n<BINARY>") ++
      fl.flatMap toBytes4 ++ strBytes ("</BINARY>")) := by
  simp [Planet.content, hp, hf]

/-! ## Source segments against the claims' enumeration -/

theorem windFlatSeg_spec (o : Option Winds) : windFlatSeg o = specWindSeg o := by
  cases o <;> rfl

theorem optFlatSeg_spec (o : Option Field) : optFlatSeg o = specOptSeg o := by
  cases o <;> rfl

theorem molFlatSeg_ok_spec (o : Option Molecules)
    (h : ∀ m, o = some m → m.molecules ≠ []) :
    molFlatSeg o = .ok (specMolSeg o) := by
  cases o with
  | none => rfl
  | some m =>
    simp only [molFlatSeg, Molecules.flat, if_neg (h m rfl), specMolSeg]
    rfl

theorem aeroFlatSeg_ok_spec (o : Option Aerosols)
    (h : ∀ a, o = some a → ¬(a.aerosols = [] ∧ a.sizes = [])) :
    aeroFlatSeg o = .ok (specAeroSeg o) := by
  cases o with
  | none => rfl
  | some a =>
    simp only [aeroFlatSeg, Aerosols.flat, if_neg (h a rfl), specAeroSeg]
    rfl

theorem init_unfold (w : Option Winds) (t ps al em te pr : Option Field)
    (mo : Option Molecules) (ae : Option Aerosols) :
    Planet.init w t ps al em te pr mo ae =
      match (Planet.mk w t ps al em te pr mo ae).validate with
      | .ok _ => .ok (Planet.mk w t ps al em te pr mo ae)
      | .error e => .error e := rfl

/-! ## The claims -/

/-- C8: for every name-keyed mapping and every target shape, the aerosol
factory `Aerosols.from_dict` returns `None` rather than the collection it
builds — the method body never returns its lists. -/
theorem c8_aerosols_from_dict_none (d : List ((List Char) × Nat × Nat)) (shape : List Nat) :
    Aerosols.from_dict d shape = none := rfl

/-- C10: a validly constructed Planet may have `molecules = None` (the
shape check is presence-guarded), yet `psg_params` then always raises: it
reads `self.molecules.molecules` unconditionally right after the shape
destructuring, so the `AttributeError` branch is reachable from a valid
Planet. -/
theorem c10_psg_params_error (p : Planet) (s : Nat × Nat × Nat)
    (_hv : p.validate = .ok ()) (hs : p.shape = .ok s) (hm : p.molecules = none) :
    p.psg_params = .error .attributeError := by
  obtain ⟨a, b, c⟩ := s
  simp [Planet.psg_params, hs, hm]

/-- C10 witness: `planetA` is valid, has no molecules, and its
`psg_params` raises `AttributeError`. -/
theorem c10_witness : planetA.psg_params = Except.error PyErr.attributeError :=
  c10_psg_params_error planetA (1, 1, 1) rfl rfl rfl

/-- C4: construction stores the members and validates immediately; it
succeeds exactly when pressure and psurf are present and every present
optional field matches the canonical shapes, and it raises exactly
otherwise — so a Planet that exists has passed all the shape checks. -/
theorem c4_construction_validates (w : Option Winds)
    (t ps al em te pr : Option Field) (mo : Option Molecules) (ae : Option Aerosols) :
    (Planet.init w t ps al em te pr mo ae = .ok (Planet.mk w t ps al em te pr mo ae) ↔
      PlanetValid (Planet.mk w t ps al em te pr mo ae)) ∧
    ((∃ e, Planet.init w t ps al em te pr mo ae = .error e) ↔
      ¬PlanetValid (Planet.mk w t ps al em te pr mo ae)) := by
  rw [init_unfold]
  cases hval : (Planet.mk w t ps al em te pr mo ae).validate with
  | ok u =>
    cases u
    have hv := (validate_ok_iff _).mp hval
    refine ⟨⟨fun _ => hv, fun _ => rfl⟩, ⟨fun he => absurd hv ?_, fun hnv => absurd hv hnv⟩⟩
    obtain ⟨e, he⟩ := he
    exact absurd he (by simp)
  | error e =>
    have hnv : ¬PlanetValid (Planet.mk w t ps al em te pr mo ae) := by
      intro hv
      have hok := (validate_ok_iff _).mpr hv
      rw [hval] at hok
      exact Except.noConfusion hok
    refine ⟨⟨fun he => absurd he (by simp), fun hv => absurd hv hnv⟩,
      ⟨fun _ => hnv, fun _ => ⟨e, rfl⟩⟩⟩

/-- C6 counterexample: `planetB` is valid with shape `(1, 1, 2)`, its
`dlat` is `90°`, and `dlat * (n_lat - 1) = 90° ≠ 180°`, refuting the
claimed identity `dlat * (n_lat - 1) == 180°`. -/
theorem c6_counterexample :
    planetB.validate = .ok () ∧ planetB.shape = .ok (1, 1, 2) ∧
      planetB.dlat = .ok 90 ∧
      (90 : Rat) * (((2 - 1 : Nat) : Nat) : Rat) = 90 ∧ (90 : Rat) ≠ 180 := by
  refine ⟨rfl, rfl, ?_, by norm_num, by norm_num⟩
  rw [dlat_eq planetB 1 1 2 rfl]
  congr 1
  push_cast
  norm_num

/-- C6 amended: for every valid Planet with a three-entry shape and
nonempty axes, `dlon * n_lon = 360°` and `dlat * n_lat = 180°` hold
exactly (the code's `dlat` is `180°/n_lat`, so it is `n_lat`, not
`n_lat - 1`, that recovers `180°`). -/
theorem c6_amended (p : Planet) (nlayer nlon nlat : Nat)
    (_hv : p.validate = .ok ()) (hs : p.shape = .ok (nlayer, nlon, nlat))
    (hlon : 1 ≤ nlon) (hlat : 1 ≤ nlat) :
    (∃ dl, p.dlon = .ok dl ∧ dl * (nlon : Rat) = 360) ∧
    (∃ dla, p.dlat = .ok dla ∧ dla * (nlat : Rat) = 180) := by
  have hlon0 : (nlon : Rat) ≠ 0 := Nat.cast_ne_zero.mpr (by omega)
  have hlat0 : (nlat : Rat) ≠ 0 := Nat.cast_ne_zero.mpr (by omega)
  exact ⟨⟨360 / (nlon : Rat), dlon_eq p nlayer nlon nlat hs, div_mul_cancel₀ 360 hlon0⟩,
    ⟨180 / (nlat : Rat), dlat_eq p nlayer nlon nlat hs, div_mul_cancel₀ 180 hlat0⟩⟩

/-- C6 witness: the amended identities instantiated at `planetB`. -/
theorem c6_witness :
    (∃ dl, planetB.dlon = .ok dl ∧ dl * ((1 : Nat) : Rat) = 360) ∧
    (∃ dla, planetB.dlat = .ok dla ∧ dla * ((2 : Nat) : Rat) = 180) :=
  c6_amended planetB 1 1 2 rfl rfl (by omega) (by omega)

/-- C7 counterexample: on the §8 scenario planet the buffer has 20
elements (4 for `psurf` + 8 for `pressure` + 8 for the gas), not the 28
the claim states. -/
theorem c7_counterexample :
    planetC.validate = .ok () ∧ planetC.flat.map List.length = .ok 20 ∧
      planetC.flat.map List.length ≠ .ok 28 := by
  refine ⟨rfl, rfl, ?_⟩
  intro h
  have h20 : planetC.flat.map List.length = Except.ok 20 := rfl
  rw [h20] at h
  injection h with h2
  exact absurd h2 (by decide)

/-- C7 amended: on the §8 scenario planet (shape `(2, 2, 2)`, one gas
`H2O`, no aerosols, no optional fields) the buffer has exactly 20
elements, the header's gas count is `"1"` and its gas list is `"H2O"`. -/
theorem c7_scenario_values :
    planetC.validate = .ok () ∧
    planetC.flat.map List.length = .ok 20 ∧
    planetC.psg_params.map
        (fun ps => (lookupParam ps (str ("ATMOSPHERE-NGAS")),
          lookupParam ps (str ("ATMOSPHERE-GAS")))) =
      .ok (some (str ("1")), some (str ("H2O"))) :=
  ⟨rfl, rfl, rfl⟩

/-- C5 counterexample: `planetA` is valid with `n_lat = 1`, but its
latitude axis is the single point `[-90°]`, which does not contain
`+90°` — the closed-span description fails on this valid Planet. -/
theorem c5_counterexample :
    planetA.validate = .ok () ∧ planetA.shape = .ok (1, 1, 1) ∧
      planetA.lats = .ok [(-90 : Rat)] ∧ (90 : Rat) ∉ ([(-90 : Rat)] : List Rat) := by
  refine ⟨rfl, rfl, ?_, by norm_num⟩
  rw [lats_eq planetA 1 1 1 rfl]
  congr 1
  norm_num [List.range_succ]

/-- C5 amended: for every valid Planet with a three-entry shape and
`n_lat ≥ 2`, the axes behave as claimed: `lons` is `n_lon` evenly spaced
points from `-180°` inside `[-180°, 180°)`; `lats` is `n_lat` evenly
spaced points containing both poles inside `[-90°, 90°]` (with spacing
`180°/(n_lat-1)`); `dlon = 360°/n_lon` and `dlat = 180°/n_lat`. -/
theorem c5_amended (p : Planet) (nlayer nlon nlat : Nat)
    (_hv : p.validate = .ok ()) (hs : p.shape = .ok (nlayer, nlon, nlat))
    (hlat2 : 2 ≤ nlat) :
    LonLatSpec p nlon nlat := by
  refine ⟨(List.range nlon).map (fun i : Nat => -180 + (i : Rat) * (360 / (nlon : Rat))),
    (List.range nlat).map (fun i : Nat => -90 + (i : Rat) * (180 / ((nlat - 1 : Nat) : Rat))),
    lons_eq p nlayer nlon nlat hs, by simp, ?_, ?_,
    lats_eq p nlayer nlon nlat hs, by simp, ?_, ?_, ?_, ?_,
    dlon_eq p nlayer nlon nlat hs, dlat_eq p nlayer nlon nlat hs⟩
  · intro i
    simp only [List.get_eq_getElem, List.getElem_map, List.getElem_range]
  · intro x hx
    obtain ⟨i, hi, rfl⟩ := List.mem_map.mp hx
    replace hi := List.mem_range.mp hi
    have hnpos : 0 < nlon := by omega
    have hc : (0 : Rat) < nlon := by exact_mod_cast hnpos
    have hfrac : (0 : Rat) < 360 / nlon := div_pos (by norm_num) hc
    have hi' : (i : Rat) < nlon := by exact_mod_cast hi
    constructor
    · have h0 : 0 ≤ (i : Rat) * (360 / nlon) :=
        mul_nonneg (Nat.cast_nonneg i) (le_of_lt hfrac)
      linarith
    · have h1 : (i : Rat) * (360 / nlon) < nlon * (360 / nlon) :=
        mul_lt_mul_of_pos_right hi' hfrac
      have h2 : (nlon : Rat) * (360 / nlon) = 360 := by
        rw [mul_comm]
        exact div_mul_cancel₀ 360 (ne_of_gt hc)
      linarith
  · intro i
    simp only [List.get_eq_getElem, List.getElem_map, List.getElem_range]
  · exact List.mem_map.mpr ⟨0, List.mem_range.mpr (by omega), by norm_num⟩
  · have hc : ((nlat - 1 : Nat) : Rat) ≠ 0 := Nat.cast_ne_zero.mpr (by omega)
    refine List.mem_map.mpr ⟨nlat - 1, List.mem_range.mpr (by omega), ?_⟩
    rw [mul_comm, div_mul_cancel₀ 180 hc]
    norm_num
  · intro x hx
    obtain ⟨i, hi, rfl⟩ := List.mem_map.mp hx
    replace hi := List.mem_range.mp hi
    have hc : ((nlat - 1 : Nat) : Rat) ≠ 0 := Nat.cast_ne_zero.mpr (by omega)
    have hcpos : (0 : Rat) < ((nlat - 1 : Nat) : Rat) := by
      have : 0 < nlat - 1 := by omega
      exact_mod_cast this
    have hfrac : (0 : Rat) ≤ 180 / ((nlat - 1 : Nat) : Rat) :=
      le_of_lt (div_pos (by norm_num) hcpos)
    constructor
    · have h0 : 0 ≤ (i : Rat) * (180 / ((nlat - 1 : Nat) : Rat)) :=
        mul_nonneg (Nat.cast_nonneg i) hfrac
      linarith
    · have hile : (i : Rat) ≤ ((nlat - 1 : Nat) : Rat) := Nat.cast_le.mpr (by omega)
      have h1 : (i : Rat) * (180 / ((nlat - 1 : Nat) : Rat)) ≤
          ((nlat - 1 : Nat) : Rat) * (180 / ((nlat - 1 : Nat) : Rat)) :=
        mul_le_mul_of_nonneg_right hile hfrac
      have h2 : ((nlat - 1 : Nat) : Rat) * (180 / ((nlat - 1 : Nat) : Rat)) = 180 := by
        rw [mul_comm]
        exact div_mul_cancel₀ 180 hc
      linarith

/-- C5 witness: the amended axis description instantiated at `planetB`. -/
theorem c5_witness : LonLatSpec planetB 1 2 :=
  c5_amended planetB 1 1 2 rfl rfl (by omega)

/-- C9: for every valid Planet, parsing the first three comma-separated
entries of `gcm_properties` as `(n_lon, n_lat, n_layer)` reassembles the
exact `(n_layer, n_lon, n_lat)` shape tuple the Planet carries. -/
theorem c9_roundtrip (p : Planet) (nlayer nlon nlat : Nat) (g : List Char)
    (hv : p.validate = .ok ()) (hs : p.shape = .ok (nlayer, nlon, nlat))
    (hg : p.gcm_properties = .ok g) :
    parseShapeTriple g = some (nlayer, nlon, nlat) := by
  obtain ⟨pr, hpr⟩ := validate_ok_pressure p hv
  obtain ⟨ps, hps⟩ := validate_ok_psurf p hv
  have hvars := gcmVars_eq p ps pr hps hpr
  have hgeq := gcm_properties_eq p nlayer nlon nlat _ hs hvars
  rw [hg] at hgeq
  injection hgeq with hgeq
  subst hgeq
  unfold parseShapeTriple
  simp only [List.append_assoc, List.singleton_append, List.cons_append, List.nil_append]
  rw [splitOnChar_append ',' (natRepr nlon) _ (comma_not_mem_natRepr nlon),
    splitOnChar_append ',' (natRepr nlat) _ (comma_not_mem_natRepr nlat),
    splitOnChar_append ',' (natRepr nlayer) _ (comma_not_mem_natRepr nlayer)]
  simp [parseNat_natRepr]

/-- C9 witness: the round trip at `planetC`. -/
theorem c9_witness : parseShapeTriple planetC_gcm = some (2, 2, 2) :=
  c9_roundtrip planetC 2 2 2 planetC_gcm rfl rfl rfl

/-- C3: for every valid Planet whose parameter table and buffer exist,
`content` is the UTF-8 header text, the literal `b'\n<BINARY>'`, the raw
4-bytes-per-element buffer, and the literal `b'</BINARY>'`, and the
payload-size identity
`len(flat) * 4 = len(content) - len(header) - len(open) - len(close)`
holds. -/
theorem c3_content_layout (p : Planet) (params : List ((List Char) × List Char))
    (fl : List Nat) (hp : p.psg_params = .ok params) (hf : p.flat = .ok fl) :
    ContentSpec p params fl := by
  refine ⟨strBytesL (configLines params) ++ strBytes ("\n<BINARY>") ++
    fl.flatMap toBytes4 ++ strBytes ("</BINARY>"), content_eq p params fl hp hf, rfl, ?_⟩
  simp only [List.length_append, length_flatMap_toBytes4]
  omega

/-- C3 witness: the content layout at `planetC`. -/
theorem c3_witness : ContentSpec planetC planetC_params planetC_flat :=
  c3_content_layout planetC planetC_params planetC_flat rfl rfl

/-- C2: for every valid Planet (with nonempty molecule and aerosol
collections where present, as `np.concatenate` requires), `flat` is
exactly the claim's enumeration: wind_u, wind_v, tsurf, psurf, albedo,
emissivity, temperature, pressure, the molecules in collection order,
then aerosol abundances and sizes; absent optionals contribute nothing. -/
theorem c2_flat_enumeration (p : Planet)
    (hv : p.validate = .ok ())
    (hm : ∀ m, p.molecules = some m → m.molecules ≠ [])
    (ha : ∀ a, p.aerosols = some a → ¬(a.aerosols = [] ∧ a.sizes = [])) :
    ∃ pr ps, p.pressure = some pr ∧ p.psurf = some ps ∧
      p.flat = .ok (FlatSpecBuffer p pr ps) := by
  obtain ⟨pr, hpr⟩ := validate_ok_pressure p hv
  obtain ⟨ps, hps⟩ := validate_ok_psurf p hv
  refine ⟨pr, ps, hpr, hps, ?_⟩
  have h1 := flat_eq p ps pr (specMolSeg p.molecules) (specAeroSeg p.aerosols) hps hpr
    (molFlatSeg_ok_spec _ hm) (aeroFlatSeg_ok_spec _ ha)
  rw [h1]
  simp only [windFlatSeg_spec, optFlatSeg_spec]
  rfl

/-- C2 witness: the buffer enumeration at `planetC`. -/
theorem c2_witness :
    ∃ pr ps, planetC.pressure = some pr ∧ planetC.psurf = some ps ∧
      planetC.flat = .ok (FlatSpecBuffer planetC pr ps) :=
  c2_flat_enumeration planetC rfl
    (fun m h => by
      injection h with h2
      rw [← h2]
      decide)
    (fun a h => Option.noConfusion h)

/-- C1: for every valid Planet, the name tokens after the seven-entry
coordinate block of `gcm_properties` are exactly the contributors of
`flat`, one token per contributor (the `'Winds'` token for the wind
pair), in identical order, and `flat` is the concatenation of those
contributors' values. -/
theorem c1_names_match_flat (p : Planet) (es : List Entry) (g : List Char) (fl : List Nat)
    (hv : p.validate = .ok ()) (he : p.entries = .ok es)
    (hg : p.gcm_properties = .ok g) (hf : p.flat = .ok fl)
    (hnc : ∀ n ∈ es.map Entry.nameOf, ',' ∉ n) :
    GcmNamesMatch es g fl := by
  obtain ⟨pr, hpr⟩ := validate_ok_pressure p hv
  obtain ⟨ps, hps⟩ := validate_ok_psurf p hv
  have hes := entries_eq p ps pr hps hpr
  rw [he] at hes
  injection hes with hes
  have hnames : es.map Entry.nameOf =
      windNameSeg p.wind ++ optNameSeg p.tsurf ++ [ps.name] ++ optNameSeg p.albedo ++
        optNameSeg p.emissivity ++ optNameSeg p.temperature ++ [pr.name] ++
        molNameSeg p.molecules ++ aeroNameSeg p.aerosols := by
    rw [hes]
    simp only [List.map_append, map_nameOf_windEntrySeg, map_nameOf_optEntrySeg,
      map_nameOf_molEntrySeg, map_nameOf_aeroEntrySeg, List.map_cons, List.map_nil,
      Entry.nameOf]
  simp only [Planet.gcm_properties, except_bind_ok, Except.ok.injEq] at hg
  obtain ⟨⟨nlayer, nlon, nlat⟩, hsh, dl, hdl, dla, hdla, vars, hvars, hgv⟩ := hg
  have hvars2 := gcmVars_eq p ps pr hps hpr
  rw [hvars] at hvars2
  injection hvars2 with hvars2
  constructor
  · rw [← hgv]
    have hvne : vars ≠ [] := gcmVars_ok_ne_nil p vars hvars
    have hvc : ∀ t ∈ vars, ',' ∉ t := by
      intro t ht
      apply hnc
      rw [hnames, ← hvars2]
      exact ht
    rw [splitOnChar_gcm nlayer nlon nlat dl dla vars hvne hvc]
    simp only [List.cons_append, List.nil_append, List.drop_succ_cons, List.drop_zero]
    rw [hvars2, ← hnames]
  · obtain ⟨ps', pr', mo, ae, hps', hpr', hmo, hae, hfl⟩ := flat_ok_inv p fl hf
    rw [hps] at hps'
    injection hps' with hps'
    rw [hpr] at hpr'
    injection hpr' with hpr'
    subst hps'
    subst hpr'
    rw [hfl, hes]
    simp only [List.map_append, List.flatten_append, List.map_cons, List.map_nil,
      List.flatten_cons, List.flatten_nil, List.append_nil, Entry.flatOf,
      flatten_flatOf_windEntrySeg, flatten_flatOf_optEntrySeg,
      flatten_flatOf_molEntrySeg p.molecules mo hmo,
      flatten_flatOf_aeroEntrySeg p.aerosols ae hae]

/-- C1 witness: the name/contributor correspondence at `planetC`. -/
theorem c1_witness : GcmNamesMatch planetC_entries planetC_gcm planetC_flat :=
  c1_names_match_flat planetC planetC_entries planetC_gcm planetC_flat rfl rfl rfl rfl
    (by decide)

end VSPEC
